import Mathlib

/-!
Shallow embedding of the Cloudinary AI SaaS application (Next.js + Clerk +
Prisma) for verification of its specification.

Embedded components:
* `src/middleware.ts` — the Clerk access-gate middleware (public-route
  allow-lists, redirects, 401 JSON rejection).
* `src/lib/upload-utils.ts` — client-side video file validation.
* `src/app/(app)/video-upload/page.tsx` — the validation-before-network
  phase of the submit handler.
* `src/app/api/video-upload/route.ts` — the Phase 2 metadata endpoint
  (JSON parsing, field validation, Prisma create, error classification).
* `src/app/api/videos` GET route — the listing endpoint.

HTTP requests/responses are modelled as plain data; the Prisma store is a
list of records; the external Prisma client calls (`video.create`,
`video.findMany`) are modelled by explicit functions on that list, with
`create` raising a unique-constraint error message when `publicId`
collides, per the declared uniqueness of the reference id.
-/

/-! ### String primitives

The JavaScript string methods used by the sources, modelled over the
character list of the string so that the kernel can evaluate them on
concrete inputs. -/

/-- The method `s.startsWith(pre)`. -/
def strStartsWith (s pre : String) : Bool :=
  pre.toList.isPrefixOf s.toList

/-- The method `s.trim()`: strip whitespace from both ends. -/
def jsTrim (s : String) : String :=
  String.mk (((s.toList.dropWhile (fun c => c.isWhitespace)).reverse.dropWhile
    (fun c => c.isWhitespace)).reverse)

/-- Whether `pat` occurs as a contiguous run inside `l`
(`String.prototype.includes` on character lists). -/
def listContainsSub (pat : List Char) : List Char → Bool
  | [] => pat.isPrefixOf []
  | c :: cs => pat.isPrefixOf (c :: cs) || listContainsSub pat cs

/-- The method `s.includes(pat)`. -/
def strIncludes (s pat : String) : Bool :=
  listContainsSub pat.toList s.toList

/-! ### Access gate: `src/middleware.ts` -/

/-- The decision the middleware returns for a request: pass through
(`NextResponse.next()`), a redirect, or a JSON error with a status. -/
inductive MwResponse where
  | next : MwResponse
  | redirect (target : String) : MwResponse
  | unauthorizedJson (error : String) (status : Nat) : MwResponse
deriving DecidableEq

/-- The matcher `createRouteMatcher(["/signin", "/signup", "/", "/home"])`. -/
def isPublicRoute (pathname : String) : Bool :=
  ["/signin", "/signup", "/", "/home"].contains pathname

/-- The matcher `createRouteMatcher(["/api/videos"])`. -/
def isPublicApiRoute (pathname : String) : Bool :=
  ["/api/videos"].contains pathname

/-- The `clerkMiddleware` callback of `src/middleware.ts`: given the
authenticated user id from `auth()` (if any) and the request pathname,
produce the response decision.  The three early `return`s of the source
become nested `if`s in source order. -/
def clerkMiddleware (userId : Option String) (pathname : String) : MwResponse :=
  let isHomePage : Bool := pathname == "/home"
  let isApiRequest : Bool := strStartsWith pathname "/api"
  if userId.isSome && isPublicRoute pathname && !isHomePage then
    MwResponse.redirect "/home"
  else if userId.isNone && (!isPublicApiRoute pathname && !isPublicRoute pathname) then
    MwResponse.redirect "/signin"
  else if userId.isNone && (isApiRequest && !isPublicApiRoute pathname) then
    MwResponse.unauthorizedJson "Unauthorized" 401
  else
    MwResponse.next

/-! ### Client-side validation: `src/lib/upload-utils.ts` -/

/-- A browser `File` as far as the validator inspects it. -/
structure JFile where
  name : String
  size : Nat
  type : String
deriving DecidableEq

/-- The constant `FILE_SIZE_LIMITS.MAX_VIDEO_SIZE = 70 * 1024 * 1024`. -/
def MAX_VIDEO_SIZE : Nat := 70 * 1024 * 1024

/-- Function `validateVideoFile` of `src/lib/upload-utils.ts`: absent file, size
strictly above the ceiling, or a media type not starting with `video/`
each throw (modelled as `Except.error` carrying the thrown message). -/
def validateVideoFile : Option JFile → Except String Unit
  | none => Except.error "Please select a video file"
  | some f =>
    if f.size > MAX_VIDEO_SIZE then
      Except.error "File size should be less than 70MB"
    else if !(strStartsWith f.type "video/") then
      Except.error "Please select a valid video file"
    else
      Except.ok ()

/-- Outcome of the submit handler of
`src/app/(app)/video-upload/page.tsx`, truncated at the first network
call: either the handler threw during the client-side validation phase
(before any network call), or it reached `uploadVideoToCloudinary`. -/
inductive SubmitOutcome where
  | failedBeforeNetwork (msg : String) : SubmitOutcome
  | issuedNetworkCall (file : JFile) (title : String) : SubmitOutcome
deriving DecidableEq

/-- The validation phase of `handleSubmit`: `validateVideoFile(state.file)`
then the title check, both before `uploadVideoToCloudinary`. -/
def handleSubmit (file : Option JFile) (title : String) : SubmitOutcome :=
  match validateVideoFile file, file with
  | Except.error m, _ => SubmitOutcome.failedBeforeNetwork m
  | Except.ok _, none => SubmitOutcome.failedBeforeNetwork "Please select a video file"
  | Except.ok _, some f =>
    if jsTrim title == "" then
      SubmitOutcome.failedBeforeNetwork "Please enter a video title"
    else
      SubmitOutcome.issuedNetworkCall f title

/-! ### Metadata endpoint: `src/app/api/video-upload/route.ts` -/

/-- The `duration` field of the JSON payload as seen through
`Number(duration)`: absent (`undefined`), present but non-numeric
(`Number` gives `NaN`), or a number. -/
inductive JsDuration where
  | absent : JsDuration
  | nonNumeric : JsDuration
  | numeric (q : Int) : JsDuration
deriving DecidableEq

/-- The coercion `Number(duration) || 0`: a number stays itself (`0 || 0` is `0`),
`NaN` and `undefined` coerce to `0`. -/
def coerceDuration : JsDuration → Int
  | JsDuration.absent => 0
  | JsDuration.nonNumeric => 0
  | JsDuration.numeric q => q

/-- The parsed JSON body of a Phase 2 request (`VideoUploadRequest` in the
source).  String fields that the validator probes with `?.` are `Option`s
so that an absent JSON key is representable. -/
structure VideoUploadRequest where
  title : Option String
  description : Option String
  publicId : Option String
  videoUrl : Option String
  originalSize : String
  compressedSize : String
  duration : JsDuration
  format : Option String
  width : Option Int
  height : Option Int
deriving DecidableEq

/-- The test `!field?.trim()`: the field is treated as missing when it is absent or
empty after trimming. -/
def fieldMissing : Option String → Bool
  | none => true
  | some s => jsTrim s == ""

/-- The `missingFields` array built by the validation phase, in source
order: `title`, `publicId`, `videoUrl`. -/
def missingFields (vd : VideoUploadRequest) : List String :=
  (if fieldMissing vd.title then ["title"] else []) ++
  (if fieldMissing vd.publicId then ["publicId"] else []) ++
  (if fieldMissing vd.videoUrl then ["videoUrl"] else [])

/-- The defaulting expression for the description field: take the trimmed
description when nonempty, the empty string otherwise. -/
def descriptionValue : Option String → String
  | none => ""
  | some s => if jsTrim s == "" then "" else jsTrim s

/-- The `data` object passed to `prisma.video.create`: exactly the six
stored columns.  The payload fields `videoUrl`, `format`, `width` and `height`
do not appear here. -/
structure CreateData where
  title : String
  description : String
  publicId : String
  originalSize : String
  compressedSize : String
  duration : Int
deriving DecidableEq

/-- Builds the `create` data from the parsed payload:
trimmed title, defaulted description, trimmed reference id,
`originalSize`, `compressedSize`, `Number(duration) || 0`. -/
def createData (vd : VideoUploadRequest) : CreateData where
  title := jsTrim (vd.title.getD "")
  description := descriptionValue vd.description
  publicId := jsTrim (vd.publicId.getD "")
  originalSize := vd.originalSize
  compressedSize := vd.compressedSize
  duration := coerceDuration vd.duration

/-- A persisted `Video` row: the stored columns plus the DB-assigned
`id` and `createdAt`. -/
structure Video where
  id : String
  title : String
  description : String
  publicId : String
  originalSize : String
  compressedSize : String
  duration : Int
  createdAt : Nat
deriving DecidableEq

/-- The row `prisma.video.create` would insert for `d`, with DB-assigned
id `newId` and creation time `now`. -/
def mkVideo (newId : String) (now : Nat) (d : CreateData) : Video where
  id := newId
  title := d.title
  description := d.description
  publicId := d.publicId
  originalSize := d.originalSize
  compressedSize := d.compressedSize
  duration := d.duration
  createdAt := now

/-- Model of `prisma.video.create` on a store with a unique constraint on
`publicId`: a colliding `publicId` raises the Prisma unique-constraint
error message, otherwise the new row is appended and returned. -/
def prismaCreate (db : List Video) (newId : String) (now : Nat) (d : CreateData) :
    Except String (Video × List Video) :=
  if db.any (fun v => v.publicId == d.publicId) then
    Except.error "Unique constraint failed on the fields: (`publicId`)"
  else
    let v := mkVideo newId now d
    Except.ok (v, db ++ [v])

/-- The catch block of the metadata endpoint: map a persistence error
message to the response status and error text.  `Unique constraint` →
409 conflict; otherwise `Foreign key constraint` → 400; otherwise the
generic 500. -/
def classifyPersistenceError (msg : String) : Nat × String :=
  if strIncludes msg "Unique constraint" then
    (409, "Video with this public ID already exists")
  else if strIncludes msg "Foreign key constraint" then
    (400, "Invalid reference data provided")
  else
    (500, "Failed to save video metadata")

/-- The JSON body of a metadata-endpoint response: an error body
(`error` plus optional `details`) or the consolidated success body. -/
inductive RespBody where
  | errBody (error : String) (details : Option String) : RespBody
  | videoBody (id : String) (title : String) (publicId : String)
      (videoUrl : String) (createdAt : Nat) : RespBody
deriving DecidableEq

/-- An HTTP response of the metadata endpoint: status plus JSON body. -/
structure ApiResponse where
  status : Nat
  body : RespBody
deriving DecidableEq

/-- The request body as the endpoint first sees it: either
`request.json()` succeeded, or parsing threw with a message. -/
inductive ParseResult where
  | parsed (vd : VideoUploadRequest) : ParseResult
  | parseFailed (msg : String) : ParseResult
deriving DecidableEq

/-- The `POST` handler of `src/app/api/video-upload/route.ts` over the
modelled store: JSON-parse errors give 400; missing required fields give
400 naming them; otherwise the record is created (201 with the
consolidated body, echoing the `videoUrl` of the payload), and a persistence
error is classified by the catch block with the underlying message
attached as `details`, leaving the store unchanged. -/
def POSTvideoUpload (body : ParseResult) (db : List Video) (newId : String) (now : Nat) :
    ApiResponse × List Video :=
  match body with
  | ParseResult.parseFailed msg =>
    ({ status := 400, body := RespBody.errBody "Invalid JSON payload" (some msg) }, db)
  | ParseResult.parsed vd =>
    let missing := missingFields vd
    if missing.isEmpty then
      match prismaCreate db newId now (createData vd) with
      | Except.ok (v, db2) =>
        ({ status := 201,
           body := RespBody.videoBody v.id v.title v.publicId (vd.videoUrl.getD "") v.createdAt },
         db2)
      | Except.error msg =>
        let c := classifyPersistenceError msg
        ({ status := c.1, body := RespBody.errBody c.2 (some msg) }, db)
    else
      ({ status := 400,
         body := RespBody.errBody
           ("Missing required fields: " ++ String.intercalate ", " missing) none }, db)

/-! ### Listing endpoint: the `/api/videos` GET route -/

/-- The `GET` handler of the `/api/videos` route:
`prisma.video.findMany({ orderBy: { createdAt: "desc" } })`, modelled as
a stable sort of the store by `createdAt` descending. -/
def GETvideos (db : List Video) : List Video :=
  db.mergeSort (fun a b => b.createdAt ≤ a.createdAt)

/-! ### Shared lemmas -/

/-- On a valid payload whose `publicId` is fresh in the store, the endpoint
returns the 201 consolidated response and appends exactly the new row. -/
theorem POSTvideoUpload_valid_eq (vd : VideoUploadRequest) (db : List Video)
    (newId : String) (now : Nat)
    (hval : missingFields vd = [])
    (hfresh : db.any (fun v => v.publicId == (createData vd).publicId) = false) :
    POSTvideoUpload (ParseResult.parsed vd) db newId now =
      ({ status := 201,
         body := RespBody.videoBody newId (createData vd).title (createData vd).publicId
           (vd.videoUrl.getD "") now },
       db ++ [mkVideo newId now (createData vd)]) := by
  have h1 : (missingFields vd).isEmpty = true := by rw [hval]; rfl
  have h2 : prismaCreate db newId now (createData vd) =
      Except.ok (mkVideo newId now (createData vd),
        db ++ [mkVideo newId now (createData vd)]) := by
    unfold prismaCreate
    rw [hfresh]
    simp
  simp only [POSTvideoUpload, h1, if_true, h2]
  rfl

/-! ### Claim theorems -/

/-- Claim C1 (code bug): the spec says an unauthenticated request to a
non-public API path yields a 401 JSON error and never a redirect, and the
comment on the API branch of the middleware says the same; but the
page-redirect branch runs first, so such a request is redirected to the
sign-in path and the 401 branch is unreachable.  Shown at the concrete
path `/api/video-upload`. -/
theorem middleware_unauth_api_request_redirected :
    clerkMiddleware none "/api/video-upload" = MwResponse.redirect "/signin" ∧
    clerkMiddleware none "/api/video-upload" ≠
      MwResponse.unauthorizedJson "Unauthorized" 401 :=
  ⟨rfl, by decide⟩

/-- Claim C5: an authenticated request to a public page path other than
`/home` is redirected to `/home`, and an authenticated request to `/home`
itself passes through with no redirect. -/
theorem middleware_authenticated_public_page (uid pathname : String)
    (hpub : isPublicRoute pathname = true) :
    (pathname ≠ "/home" → clerkMiddleware (some uid) pathname = MwResponse.redirect "/home") ∧
    clerkMiddleware (some uid) "/home" = MwResponse.next := by
  refine ⟨?_, rfl⟩
  intro hne
  have hmem : pathname ∈ ["/signin", "/signup", "/", "/home"] := by
    simpa [isPublicRoute] using hpub
  fin_cases hmem
  · rfl
  · rfl
  · rfl
  · exact absurd rfl hne

/-- Witness for C5 at the sign-in path and a concrete user id. -/
theorem middleware_authenticated_public_page_witness :
    clerkMiddleware (some "user_1") "/signin" = MwResponse.redirect "/home" ∧
    clerkMiddleware (some "user_1") "/home" = MwResponse.next := by
  have h := middleware_authenticated_public_page "user_1" "/signin" (by decide)
  exact ⟨h.1 (by decide), h.2⟩

/-- Claim C6: the client-side validator throws exactly when the file is
absent, strictly larger than 70 MiB, or not of a `video/` media type; and
whenever it throws, the submit handler stops before issuing any network
call. -/
theorem validateVideoFile_rejects_iff (f : Option JFile) (t : String) :
    ((∃ m, validateVideoFile f = Except.error m) ↔
      f = none ∨ ∃ fl, f = some fl ∧
        (MAX_VIDEO_SIZE < fl.size ∨ strStartsWith fl.type "video/" = false)) ∧
    (∀ m, validateVideoFile f = Except.error m →
      ∀ fl t2, handleSubmit f t ≠ SubmitOutcome.issuedNetworkCall fl t2) := by
  constructor
  · cases f with
    | none => simp [validateVideoFile]
    | some fl =>
      simp only [validateVideoFile]
      by_cases h1 : MAX_VIDEO_SIZE < fl.size
      · simp [h1]
      · by_cases h2 : strStartsWith fl.type "video/"
        · simp [h1, h2, Nat.not_lt.mp h1]
        · simp [h1, h2]
  · intro m hm fl t2
    simp [handleSubmit, hm]

/-- Witness for C6 at a file one byte over the ceiling. -/
theorem validateVideoFile_rejects_iff_witness :
    (∃ m, validateVideoFile
        (some { name := "big.mp4", size := MAX_VIDEO_SIZE + 1, type := "video/mp4" }) =
      Except.error m) ∧
    handleSubmit (some { name := "big.mp4", size := MAX_VIDEO_SIZE + 1, type := "video/mp4" }) "t" ≠
      SubmitOutcome.issuedNetworkCall
        { name := "big.mp4", size := MAX_VIDEO_SIZE + 1, type := "video/mp4" } "t" := by
  have h := validateVideoFile_rejects_iff
    (some { name := "big.mp4", size := MAX_VIDEO_SIZE + 1, type := "video/mp4" }) "t"
  exact ⟨h.1.mpr (Or.inr ⟨_, rfl, Or.inl (by decide)⟩),
    h.2 "File size should be less than 70MB" rfl _ _⟩

/-- Claim C10: a file of exactly 70 MiB (70 * 1024 * 1024 bytes) passes the
client-side validator, because the size check is a strict greater-than
against the ceiling. -/
theorem validateVideoFile_accepts_exact_limit :
    validateVideoFile
        (some { name := "exact.mp4", size := 70 * 1024 * 1024, type := "video/mp4" }) =
      Except.ok () ∧
    MAX_VIDEO_SIZE = 70 * 1024 * 1024 :=
  ⟨rfl, rfl⟩

/-- Claim C2: a Phase 2 payload with `title`, `publicId` or `videoUrl`
absent or empty after trimming gets a 400 response whose error message
names exactly the missing fields, and the store is unchanged. -/
theorem POST_missing_fields_400 (vd : VideoUploadRequest) (db : List Video)
    (newId : String) (now : Nat)
    (hmiss : missingFields vd ≠ []) :
    (POSTvideoUpload (ParseResult.parsed vd) db newId now).1 =
      { status := 400,
        body := RespBody.errBody
          ("Missing required fields: " ++ String.intercalate ", " (missingFields vd)) none } ∧
    (POSTvideoUpload (ParseResult.parsed vd) db newId now).2 = db ∧
    (fieldMissing vd.title = true ↔ "title" ∈ missingFields vd) ∧
    (fieldMissing vd.publicId = true ↔ "publicId" ∈ missingFields vd) ∧
    (fieldMissing vd.videoUrl = true ↔ "videoUrl" ∈ missingFields vd) := by
  have hne : (missingFields vd).isEmpty = false := by
    simpa [List.isEmpty_iff] using hmiss
  refine ⟨?_, ?_, ?_, ?_, ?_⟩
  · simp [POSTvideoUpload, hne]
  · simp [POSTvideoUpload, hne]
  all_goals
    cases h1 : fieldMissing vd.title <;>
    cases h2 : fieldMissing vd.publicId <;>
    cases h3 : fieldMissing vd.videoUrl <;>
    simp [missingFields, h1, h2, h3]

/-- Witness for C2 at a payload with an absent title. -/
theorem POST_missing_fields_400_witness :
    (POSTvideoUpload (ParseResult.parsed
        ⟨none, none, some "p", some "u", "1", "2", JsDuration.numeric 3, none, none, none⟩)
        [] "v1" 0).1 =
      { status := 400,
        body := RespBody.errBody
          ("Missing required fields: " ++ String.intercalate ", "
            (missingFields
              ⟨none, none, some "p", some "u", "1", "2", JsDuration.numeric 3, none, none, none⟩))
          none } ∧
    (POSTvideoUpload (ParseResult.parsed
        ⟨none, none, some "p", some "u", "1", "2", JsDuration.numeric 3, none, none, none⟩)
        [] "v1" 0).2 = [] ∧
    "title" ∈ missingFields
      ⟨none, none, some "p", some "u", "1", "2", JsDuration.numeric 3, none, none, none⟩ := by
  have h := POST_missing_fields_400
    ⟨none, none, some "p", some "u", "1", "2", JsDuration.numeric 3, none, none, none⟩
    [] "v1" 0 (by decide)
  exact ⟨h.1, h.2.1, (h.2.2.1).mp (by decide)⟩

/-- Claim C3: a valid Phase 2 payload whose reference id is fresh creates
exactly one record (the store grows by exactly the new row), and the
stored duration is the numeric input duration, defaulting to 0 when the
input duration is absent or non-numeric. -/
theorem POST_valid_creates_one_record (vd : VideoUploadRequest) (db : List Video)
    (newId : String) (now : Nat)
    (hval : missingFields vd = [])
    (hfresh : db.any (fun v => v.publicId == (createData vd).publicId) = false) :
    (POSTvideoUpload (ParseResult.parsed vd) db newId now).2 =
      db ++ [mkVideo newId now (createData vd)] ∧
    (mkVideo newId now (createData vd)).duration = coerceDuration vd.duration ∧
    (vd.duration = JsDuration.absent ∨ vd.duration = JsDuration.nonNumeric →
      (mkVideo newId now (createData vd)).duration = 0) ∧
    (∀ q : Int, vd.duration = JsDuration.numeric q →
      (mkVideo newId now (createData vd)).duration = q) := by
  refine ⟨?_, rfl, ?_, ?_⟩
  · rw [POSTvideoUpload_valid_eq vd db newId now hval hfresh]
  · rintro (h | h) <;> simp [mkVideo, createData, h, coerceDuration]
  · intro q h
    simp [mkVideo, createData, h, coerceDuration]

/-- Witness for C3 at a valid payload with an absent duration. -/
theorem POST_valid_creates_one_record_witness :
    (POSTvideoUpload (ParseResult.parsed
        ⟨some "t", none, some "p", some "u", "1", "2", JsDuration.absent, none, none, none⟩)
        [] "v1" 0).2 =
      [] ++ [mkVideo "v1" 0 (createData
        ⟨some "t", none, some "p", some "u", "1", "2", JsDuration.absent, none, none, none⟩)] ∧
    (mkVideo "v1" 0 (createData
      ⟨some "t", none, some "p", some "u", "1", "2", JsDuration.absent, none, none, none⟩)).duration = 0 := by
  have h := POST_valid_creates_one_record
    ⟨some "t", none, some "p", some "u", "1", "2", JsDuration.absent, none, none, none⟩
    [] "v1" 0 (by decide) (by decide)
  exact ⟨h.1, h.2.2.1 (Or.inl rfl)⟩

/-- Claim C7: a valid Phase 2 payload whose insert succeeds gets a 201
response whose body carries the new record id, the stored (trimmed) title
and reference id, the client-supplied URL from the payload, and the
creation timestamp. -/
theorem POST_valid_success_response (vd : VideoUploadRequest) (db : List Video)
    (newId : String) (now : Nat)
    (hval : missingFields vd = [])
    (hfresh : db.any (fun v => v.publicId == (createData vd).publicId) = false) :
    (POSTvideoUpload (ParseResult.parsed vd) db newId now).1 =
      { status := 201,
        body := RespBody.videoBody newId (jsTrim (vd.title.getD ""))
          (jsTrim (vd.publicId.getD "")) (vd.videoUrl.getD "") now } := by
  rw [POSTvideoUpload_valid_eq vd db newId now hval hfresh]
  rfl

/-- Witness for C7 at a valid payload with padded title. -/
theorem POST_valid_success_response_witness :
    (POSTvideoUpload (ParseResult.parsed
        ⟨some " t ", none, some "p", some "u", "1", "2", JsDuration.numeric 9, none, none, none⟩)
        [] "v1" 7).1 =
      { status := 201, body := RespBody.videoBody "v1" "t" "p" "u" 7 } := by
  have h := POST_valid_success_response
    ⟨some " t ", none, some "p", some "u", "1", "2", JsDuration.numeric 9, none, none, none⟩
    [] "v1" 7 (by decide) (by decide)
  simpa using h

/-- Claim C9: the stored row is built only from title, description,
reference id, original size, compressed size and duration — changing the
payload fields `videoUrl`, `format`, `width`, `height` leaves the create
data unchanged — and the URL in the success body is echoed from the
request payload rather than read back from the stored record. -/
theorem createData_frame_and_url_echo (vd : VideoUploadRequest)
    (u2 f2 : Option String) (w2 h2 : Option Int) (db : List Video)
    (newId : String) (now : Nat)
    (hval : missingFields vd = [])
    (hfresh : db.any (fun v => v.publicId == (createData vd).publicId) = false) :
    createData { vd with videoUrl := u2, format := f2, width := w2, height := h2 } =
      createData vd ∧
    (POSTvideoUpload (ParseResult.parsed vd) db newId now).1.body =
      RespBody.videoBody newId (createData vd).title (createData vd).publicId
        (vd.videoUrl.getD "") now := by
  refine ⟨rfl, ?_⟩
  rw [POSTvideoUpload_valid_eq vd db newId now hval hfresh]

/-- Witness for C9 at a valid payload with all discarded fields varied. -/
theorem createData_frame_and_url_echo_witness :
    createData { (⟨some "t", none, some "p", some "u", "1", "2",
        JsDuration.numeric 9, none, none, none⟩ : VideoUploadRequest) with
        videoUrl := some "other", format := some "mp4", width := some 10, height := some 20 } =
      createData ⟨some "t", none, some "p", some "u", "1", "2",
        JsDuration.numeric 9, none, none, none⟩ ∧
    (POSTvideoUpload (ParseResult.parsed
        ⟨some "t", none, some "p", some "u", "1", "2", JsDuration.numeric 9, none, none, none⟩)
        [] "v1" 7).1.body =
      RespBody.videoBody "v1" "t" "p" "u" 7 := by
  have h := createData_frame_and_url_echo
    ⟨some "t", none, some "p", some "u", "1", "2", JsDuration.numeric 9, none, none, none⟩
    (some "other") (some "mp4") (some 10) (some 20) [] "v1" 7 (by decide) (by decide)
  refine ⟨h.1, ?_⟩
  simpa [createData, jsTrim, descriptionValue, coerceDuration] using h.2

/-- Counterexample to claim C4 as stated: a persistence failure that is
not a uniqueness violation — a foreign-key-constraint message — is
reported with status 400, not the generic 500 the claim allows. -/
theorem classifyPersistenceError_foreign_key_counterexample :
    classifyPersistenceError "Foreign key constraint failed on the field: `videoId`" =
      (400, "Invalid reference data provided") ∧
    (400 : Nat) ≠ 409 ∧ (400 : Nat) ≠ 500 :=
  ⟨rfl, by decide, by decide⟩

/-- Claim C4 (amended): a persistence error mentioning a unique constraint
is a 409 conflict; otherwise one mentioning a foreign key constraint is a
400; every other persistence failure is the generic 500; and a duplicate
reference id on a valid payload yields the 409 response with the
underlying message attached and the store unchanged. -/
theorem classifyPersistenceError_cases (msg : String) :
    (strIncludes msg "Unique constraint" = true →
      classifyPersistenceError msg = (409, "Video with this public ID already exists")) ∧
    (strIncludes msg "Unique constraint" = false →
      strIncludes msg "Foreign key constraint" = true →
      classifyPersistenceError msg = (400, "Invalid reference data provided")) ∧
    (strIncludes msg "Unique constraint" = false →
      strIncludes msg "Foreign key constraint" = false →
      classifyPersistenceError msg = (500, "Failed to save video metadata")) ∧
    (∀ (vd : VideoUploadRequest) (db : List Video) (newId : String) (now : Nat),
      missingFields vd = [] →
      db.any (fun v => v.publicId == (createData vd).publicId) = true →
      POSTvideoUpload (ParseResult.parsed vd) db newId now =
        ({ status := 409,
           body := RespBody.errBody "Video with this public ID already exists"
             (some "Unique constraint failed on the fields: (`publicId`)") }, db)) := by
  refine ⟨?_, ?_, ?_, ?_⟩
  · intro h; simp [classifyPersistenceError, h]
  · intro h1 h2; simp [classifyPersistenceError, h1, h2]
  · intro h1 h2; simp [classifyPersistenceError, h1, h2]
  · intro vd db newId now hval hdup
    have h1 : (missingFields vd).isEmpty = true := by rw [hval]; rfl
    have h2 : prismaCreate db newId now (createData vd) =
        Except.error "Unique constraint failed on the fields: (`publicId`)" := by
      unfold prismaCreate
      rw [hdup]
      simp
    simp only [POSTvideoUpload, h1, if_true, h2]
    rfl

/-- Witness for C4 (amended) at the Prisma unique-constraint message. -/
theorem classifyPersistenceError_cases_witness :
    classifyPersistenceError "Unique constraint failed on the fields: (`publicId`)" =
      (409, "Video with this public ID already exists") :=
  (classifyPersistenceError_cases
    "Unique constraint failed on the fields: (`publicId`)").1 rfl

/-- Claim C8: the listing endpoint returns all stored records (a
permutation of the store) ordered by creation timestamp descending. -/
theorem GETvideos_perm_sorted_desc (db : List Video) :
    (GETvideos db).Perm db ∧
    List.Pairwise (fun a b => b.createdAt ≤ a.createdAt) (GETvideos db) := by
  refine ⟨List.mergeSort_perm db _, ?_⟩
  have h := @List.sorted_mergeSort Video
    (fun a b : Video => decide (b.createdAt ≤ a.createdAt))
    (fun a b c hab hbc => by
      simp only [decide_eq_true_eq] at hab hbc ⊢
      omega)
    (fun a b => by
      simp only [Bool.or_eq_true, decide_eq_true_eq]
      omega) db
  exact h.imp (fun hab => by simpa using hab)
